import Mathlib

/-!
Shallow embedding of `src/main.js` of the hcs-dapp-vanillajs repository.

The script is a browser page coordinating a wallet-session library and a
ledger SDK.  Its reproducible logic is a set of `async` handlers mutating
three module-level variables (`accountId`, `isConnected`, `topicId`) and
writing strings into DOM elements.  We embed each handler as a total Lean
function over an explicit `AppState`; the outcomes of external library
calls (which may resolve or throw) are supplied as `Except`-valued
environment parameters; a thrown JS error carries its `message` string.
Each handler additionally returns the list of SDK operations it performed,
so that "never invokes the SDK" claims are statable.

DOM elements can be absent (`document.getElementById` returning null); an
`Elem` carries a presence flag and its text/HTML content, mirroring the
guards in the DOM helpers of the source.
-/

namespace HcsDapp

/-- Substring test used to state "the rendered string contains ...".
`leadMatch pat l` is true when `pat` is an initial segment of `l`. -/
def leadMatch : List Char → List Char → Bool
  | [], _ => true
  | _ :: _, [] => false
  | a :: as, b :: bs => a == b && leadMatch as bs

/-- Auxiliary scan: does `pat` occur contiguously anywhere in the list? -/
def hasSubAux (pat : List Char) : List Char → Bool
  | [] => pat.isEmpty
  | c :: rest => leadMatch pat (c :: rest) || hasSubAux pat rest

/-- `strHasSub hay pat` is true when `pat` occurs contiguously in `hay`. -/
def strHasSub (hay pat : String) : Bool :=
  hasSubAux pat.data hay.data

/-- A DOM element slot: whether `document.getElementById` finds it, and its
current text content / innerHTML / value. -/
structure Elem where
  present : Bool
  content : String
  deriving Repr, DecidableEq

/-- The DOM elements the script reads or writes, by id: `accountId`,
`disconnectButton`, `topicIdDisplay`, `messageStatus`, `messageInput`. -/
structure Dom where
  accountIdElem : Elem
  disconnectButton : Elem
  topicIdDisplayElem : Elem
  messageStatusElem : Elem
  messageInput : Elem
  deriving Repr, DecidableEq

/-- The module-level mutable state of `main.js`: the globals `accountId`,
`isConnected`, `topicId`, the `walletConnectInitPromise` slot (we record
only whether the promise has been stored), and the DOM. -/
structure AppState where
  accountId : String
  isConnected : Bool
  topicId : String
  walletConnectInitStarted : Bool
  dom : Dom
  deriving Repr, DecidableEq

/-- SDK / wallet-library operations the script can invoke, for effect
tracking: `dappConnector.init()`, `openModal()`, `disconnectAll()`, and the
build / freezeWithSigner / executeWithSigner / getReceiptWithSigner steps
of the two transaction flows. -/
inductive SdkOp where
  | dappInit
  | openModal
  | disconnectAll
  | createBuild
  | createFreeze
  | createExecute
  | createReceipt
  | submitBuild
  | submitFreeze
  | submitExecute
  | submitReceipt
  deriving Repr, DecidableEq

/-- `updateAccountIdDisplay` from main.js: returns with no change when
either element is missing; otherwise sets the account text and the button
label according to the truthiness test
`value && value !== "No account connected"`. -/
def updateAccountIdDisplay (value : String) (d : Dom) : Dom :=
  if !d.accountIdElem.present || !d.disconnectButton.present then d
  else
    let d1 : Dom := { d with accountIdElem := { present := true, content := value } }
    if value != "" && value != "No account connected" then
      { d1 with disconnectButton :=
          { present := true, content := "Connected - Click to Disconnect" } }
    else
      { d1 with disconnectButton :=
          { present := true, content := "Connect to WalletConnect" } }

/-- `updateTopicIdDisplay` from main.js: writes `html` into the
`topicIdDisplay` element when present. -/
def updateTopicIdDisplay (html : String) (d : Dom) : Dom :=
  if d.topicIdDisplayElem.present then
    { d with topicIdDisplayElem := { present := true, content := html } }
  else d

/-- `updateMessageStatus` from main.js: writes `html` into the
`messageStatus` element when present. -/
def updateMessageStatus (html : String) (d : Dom) : Dom :=
  if d.messageStatusElem.present then
    { d with messageStatusElem := { present := true, content := html } }
  else d

/-- `initializeWalletConnect` from main.js: stores `dappConnector.init()`
into `walletConnectInitPromise` only when the slot is unset (the check and
the store are synchronous, with no `await` between them, so the body up to
the store runs atomically under the single-threaded event loop).  Returns
the list of external calls made: `[dappInit]` exactly when the promise was
created now. -/
def initializeWalletConnect (s : AppState) : AppState × List SdkOp :=
  if s.walletConnectInitStarted then (s, [])
  else ({ s with walletConnectInitStarted := true }, [SdkOp.dappInit])

/-- `syncWalletconnectState` from main.js.  The argument is the value of
`dappConnector.signers[0]?.getAccountId()?.toString()`: `none` when the
optional chain short-circuits, `some a` for the string `a` otherwise; the
`if (account)` truthiness test is false for `none` and for the empty
string. -/
def syncWalletconnectState (signerAccount : Option String) (s : AppState) : AppState :=
  match signerAccount with
  | some account =>
      if account != "" then
        { s with accountId := account, isConnected := true,
                 dom := updateAccountIdDisplay account s.dom }
      else
        { s with accountId := "", isConnected := false,
                 dom := updateAccountIdDisplay ("No account connected") s.dom }
  | none =>
      { s with accountId := "", isConnected := false,
               dom := updateAccountIdDisplay ("No account connected") s.dom }

/-- Environment of one `openWalletConnectModal` run: the settled outcome of
the (shared) init promise, the outcome of `dappConnector.openModal()`, and
the signer account observed by the subsequent state sync. -/
structure ConnectEnv where
  initOutcome : Except String Unit
  openModalOutcome : Except String Unit
  signerAccount : Option String

/-- `openWalletConnectModal` from main.js: ensure initialization; when not
connected, open the modal and re-sync; any error is caught and only logged
(no state change, nothing rendered). -/
def openWalletConnectModal (env : ConnectEnv) (s : AppState) : AppState × List SdkOp :=
  let p := initializeWalletConnect s
  match env.initOutcome with
  | Except.error _ => (p.1, p.2)
  | Except.ok _ =>
    if !p.1.isConnected then
      match env.openModalOutcome with
      | Except.error _ => (p.1, p.2 ++ [SdkOp.openModal])
      | Except.ok _ =>
          (syncWalletconnectState env.signerAccount p.1, p.2 ++ [SdkOp.openModal])
    else (p.1, p.2)

/-- `disconnectWallet` from main.js: when connected, call
`dappConnector.disconnectAll()`; on its success clear the local state and
the display; on a thrown error the catch block only logs, leaving the
local state untouched.  When not connected, log and no-op. -/
def disconnectWallet (disconnectOutcome : Except String Unit) (s : AppState) :
    AppState × List SdkOp :=
  if s.isConnected then
    match disconnectOutcome with
    | Except.ok _ =>
        ({ s with isConnected := false, accountId := "",
                  dom := updateAccountIdDisplay ("No account connected") s.dom },
         [SdkOp.disconnectAll])
    | Except.error _ => (s, [SdkOp.disconnectAll])
  else (s, [])

/-- A consensus-topic identifier as the SDK's `TopicId` holds it; its
string form is `shard.realm.num` (e.g. "0.0.1234"). -/
structure TopicIdVal where
  shard : Nat
  realm : Nat
  num : Nat
  deriving Repr, DecidableEq

/-- `TopicId.toString()`: renders `shard.realm.num`. -/
def TopicIdVal.render (t : TopicIdVal) : String :=
  toString t.shard ++ "." ++ toString t.realm ++ "." ++ toString t.num

/-- Receipt of a topic-creation transaction: `receipt.topicId` may be
absent (`none`, falsy in the `if (receipt.topicId)` test) or a `TopicId`
object (always truthy). -/
structure CreateReceipt where
  topicId : Option TopicIdVal
  deriving Repr, DecidableEq

/-- Environment of one `handleTopicCreation` run: the outcomes of the
freeze / execute / receipt awaits (a thrown error carries `err.message`). -/
structure CreateEnv where
  freezeOutcome : Except String Unit
  executeOutcome : Except String Unit
  receiptOutcome : Except String CreateReceipt

/-- Hard-coded explorer link `https://hashscan.io/testnet/topic/` + id. -/
def hashscanTopicLink (tid : String) : String :=
  "https://hashscan.io/testnet/topic/" ++ tid

/-- The template literal rendered on successful topic creation (the id,
line breaks, and a "View on HashScan" anchor to the explorer link). -/
def topicCreatedHtml (tid : String) : String :=
  "\n        " ++ tid ++
    ("\n        <br/><br/>\n        <a href=\"" ++ hashscanTopicLink tid ++
      ("\" target=\"_blank\" class=\"hashscan-link\">\n          View on HashScan\n        </a>\n      "))

/-- `handleTopicCreation` from main.js: precondition check on
`isConnected`, then build → freeze → execute → receipt; on a receipt with
a truthy `topicId` store its string form and render the id plus explorer
link; otherwise render the failure text; any thrown error is caught and
rendered as "Topic creation error: " + message. -/
def handleTopicCreation (env : CreateEnv) (s : AppState) : AppState × List SdkOp :=
  if !s.isConnected then
    ({ s with dom := updateTopicIdDisplay ("Connect a wallet first!") s.dom }, [])
  else
    match env.freezeOutcome with
    | Except.error msg =>
        ({ s with dom := updateTopicIdDisplay ("Topic creation error: " ++ msg) s.dom },
         [SdkOp.createBuild, SdkOp.createFreeze])
    | Except.ok _ =>
      match env.executeOutcome with
      | Except.error msg =>
          ({ s with dom := updateTopicIdDisplay ("Topic creation error: " ++ msg) s.dom },
           [SdkOp.createBuild, SdkOp.createFreeze, SdkOp.createExecute])
      | Except.ok _ =>
        match env.receiptOutcome with
        | Except.error msg =>
            ({ s with dom := updateTopicIdDisplay ("Topic creation error: " ++ msg) s.dom },
             [SdkOp.createBuild, SdkOp.createFreeze, SdkOp.createExecute,
              SdkOp.createReceipt])
        | Except.ok receipt =>
          match receipt.topicId with
          | some t =>
              ({ s with topicId := t.render,
                        dom := updateTopicIdDisplay (topicCreatedHtml t.render) s.dom },
               [SdkOp.createBuild, SdkOp.createFreeze, SdkOp.createExecute,
                SdkOp.createReceipt])
          | none =>
              ({ s with dom := updateTopicIdDisplay ("Topic creation failed (no topicId)") s.dom },
               [SdkOp.createBuild, SdkOp.createFreeze, SdkOp.createExecute,
                SdkOp.createReceipt])

/-- Receipt of a message-submission transaction: `receipt.status` is
either absent (`none`: null/undefined, falsy) or a status object whose
`toString()` is the carried string (objects are always truthy). -/
structure SubmitReceipt where
  status : Option String
  deriving Repr, DecidableEq

/-- Environment of one `handleTopicMessageSubmission` run. -/
structure SubmitEnv where
  freezeOutcome : Except String Unit
  executeOutcome : Except String Unit
  receiptOutcome : Except String SubmitReceipt

/-- The guard `receipt.status && receipt.status.toString() === "SUCCESS"`:
truthiness of the status object, then comparison of its string form. -/
def statusIsSuccess : Option String → Bool
  | some st => st == "SUCCESS"
  | none => false

/-- JS template interpolation of `receipt.status`: the object's string
form when present, the literal "undefined" when the field is absent. -/
def statusText : Option String → String
  | some st => st
  | none => "undefined"

/-- The template literal rendered on successful message submission. -/
def messageSubmittedHtml (tid : String) : String :=
  "\n        Message submitted to topic " ++ tid ++
    (" successfully!\n        <br/><br/>\n        <a href=\"" ++ hashscanTopicLink tid ++
      ("\" target=\"_blank\" class=\"hashscan-link\">\n          View on HashScan\n        </a>\n      "))

/-- `handleTopicMessageSubmission` from main.js: precondition checks on
`isConnected`, `topicId`, and a truthy `messageInput?.value` (false when
the element is missing or its value is empty), then build → freeze →
execute → receipt; success branch exactly when the status guard passes;
otherwise render the failure text interpolating the status; any thrown
error is caught and rendered as "Message submit error: " + message. -/
def handleTopicMessageSubmission (env : SubmitEnv) (s : AppState) :
    AppState × List SdkOp :=
  if !s.isConnected then
    ({ s with dom := updateMessageStatus ("Connect a wallet first!") s.dom }, [])
  else if s.topicId == "" then
    ({ s with dom := updateMessageStatus ("No topic to submit to—create a topic first!") s.dom }, [])
  else if !s.dom.messageInput.present || s.dom.messageInput.content == "" then
    ({ s with dom := updateMessageStatus ("Please enter a message first.") s.dom }, [])
  else
    match env.freezeOutcome with
    | Except.error msg =>
        ({ s with dom := updateMessageStatus ("Message submit error: " ++ msg) s.dom },
         [SdkOp.submitBuild, SdkOp.submitFreeze])
    | Except.ok _ =>
      match env.executeOutcome with
      | Except.error msg =>
          ({ s with dom := updateMessageStatus ("Message submit error: " ++ msg) s.dom },
           [SdkOp.submitBuild, SdkOp.submitFreeze, SdkOp.submitExecute])
      | Except.ok _ =>
        match env.receiptOutcome with
        | Except.error msg =>
            ({ s with dom := updateMessageStatus ("Message submit error: " ++ msg) s.dom },
             [SdkOp.submitBuild, SdkOp.submitFreeze, SdkOp.submitExecute,
              SdkOp.submitReceipt])
        | Except.ok receipt =>
          if statusIsSuccess receipt.status then
            ({ s with dom := updateMessageStatus (messageSubmittedHtml s.topicId) s.dom },
             [SdkOp.submitBuild, SdkOp.submitFreeze, SdkOp.submitExecute,
              SdkOp.submitReceipt])
          else
            let failHtml := "Message submission failed: " ++ statusText receipt.status
            ({ s with dom := updateMessageStatus failHtml s.dom },
             [SdkOp.submitBuild, SdkOp.submitFreeze, SdkOp.submitExecute,
              SdkOp.submitReceipt])

/-- The module-level globals as initialized at the top of main.js:
`accountId = ""`, `isConnected = false`, `topicId = ""`, no stored init
promise. -/
def initialState (d : Dom) : AppState :=
  { accountId := "", isConnected := false, topicId := "",
    walletConnectInitStarted := false, dom := d }

/-- One event-loop turn: any of the operations of the script, with the
environment (external-call outcomes) it observed.  `initOnly` is a bare
`initializeWalletConnect` invocation (the page-load handler). -/
inductive Step where
  | initOnly
  | sync (signerAccount : Option String)
  | connect (env : ConnectEnv)
  | disconnect (outcome : Except String Unit)
  | create (env : CreateEnv)
  | submit (env : SubmitEnv)

/-- Apply a step, returning the new state and the SDK operations
performed. -/
def applyStepOps (s : AppState) : Step → AppState × List SdkOp
  | Step.initOnly => initializeWalletConnect s
  | Step.sync a => (syncWalletconnectState a s, [])
  | Step.connect env => openWalletConnectModal env s
  | Step.disconnect o => disconnectWallet o s
  | Step.create env => handleTopicCreation env s
  | Step.submit env => handleTopicMessageSubmission env s

/-- Apply a step, state only. -/
def applyStep (s : AppState) (st : Step) : AppState :=
  (applyStepOps s st).1

/-- Run a sequence of steps, collecting the full SDK operation trace. -/
def runTrace (s : AppState) : List Step → AppState × List SdkOp
  | [] => (s, [])
  | st :: rest =>
      let p := applyStepOps s st
      let q := runTrace p.1 rest
      (q.1, p.2 ++ q.2)

/-- Run a sequence of steps, state only. -/
def runSteps (s : AppState) (l : List Step) : AppState :=
  l.foldl applyStep s

/-- The session-state invariant of the spec:
`connected == (accountIdentifier != "")`. -/
def sessionInv (s : AppState) : Prop :=
  s.isConnected = true ↔ s.accountId ≠ ""

instance (s : AppState) : Decidable (sessionInv s) := by
  unfold sessionInv; infer_instance

/-- Number of `dappConnector.init()` calls in an operation trace. -/
def countInit : List SdkOp → Nat
  | [] => 0
  | SdkOp.dappInit :: rest => countInit rest + 1
  | _ :: rest => countInit rest

/-- Potential function for the at-most-once-init argument: 1 while the
promise slot is unset, 0 afterwards. -/
def initBudget (s : AppState) : Nat :=
  if s.walletConnectInitStarted then 0 else 1

/-! Concrete fixtures used by witnesses and counterexamples. -/

/-- A page whose five elements are all present, in the disconnected UI. -/
def domAllPresent : Dom :=
  { accountIdElem := { present := true, content := "No account connected" },
    disconnectButton := { present := true, content := "Connect to WalletConnect" },
    topicIdDisplayElem := { present := true, content := "" },
    messageStatusElem := { present := true, content := "" },
    messageInput := { present := true, content := "hello world" } }

/-- A page in the connected UI. -/
def domConnected : Dom :=
  { accountIdElem := { present := true, content := "0.0.4321" },
    disconnectButton := { present := true, content := "Connected - Click to Disconnect" },
    topicIdDisplayElem := { present := true, content := "" },
    messageStatusElem := { present := true, content := "" },
    messageInput := { present := true, content := "hello world" } }

/-- The state right after page load with no restored session. -/
def disconnectedState : AppState := initialState domAllPresent

/-- A connected state (account 0.0.4321), no topic yet. -/
def connectedState : AppState :=
  { accountId := "0.0.4321", isConnected := true, topicId := "",
    walletConnectInitStarted := true, dom := domConnected }

/-- A connected state that already holds topic 0.0.1234. -/
def connectedTopicState : AppState :=
  { connectedState with topicId := "0.0.1234" }

/-- A connect environment where everything resolves. -/
def cEnvOk : ConnectEnv :=
  { initOutcome := Except.ok (), openModalOutcome := Except.ok (),
    signerAccount := some ("0.0.4321") }

/-- A create environment where everything resolves and the receipt carries
topic 0.0.1234. -/
def envCreateOk : CreateEnv :=
  { freezeOutcome := Except.ok (), executeOutcome := Except.ok (),
    receiptOutcome := Except.ok { topicId := some { shard := 0, realm := 0, num := 1234 } } }

/-- A submit environment where everything resolves with status SUCCESS. -/
def envSubmitOk : SubmitEnv :=
  { freezeOutcome := Except.ok (), executeOutcome := Except.ok (),
    receiptOutcome := Except.ok { status := some ("SUCCESS") } }

/-! Helper lemmas about the substring test. -/

theorem leadMatch_self (pat rest : List Char) : leadMatch pat (pat ++ rest) = true := by
  induction pat with
  | nil => rfl
  | cons a as ih => simp [leadMatch, ih]

theorem hasSubAux_here (pat post : List Char) : hasSubAux pat (pat ++ post) = true := by
  cases h : pat ++ post with
  | nil =>
      have hp : pat = [] := (List.append_eq_nil.mp h).1
      subst hp
      simp [hasSubAux]
  | cons c rest =>
      rw [hasSubAux, ← h, leadMatch_self]
      simp

theorem hasSubAux_cons (pat : List Char) (c : Char) (l : List Char)
    (h : hasSubAux pat l = true) : hasSubAux pat (c :: l) = true := by
  simp [hasSubAux, h]

theorem hasSubAux_mid (pre pat post : List Char) :
    hasSubAux pat (pre ++ (pat ++ post)) = true := by
  induction pre with
  | nil => simpa using hasSubAux_here pat post
  | cons c cs ih => simpa [List.cons_append] using hasSubAux_cons pat c _ ih

theorem strHasSub_of_data (hay pat : String) (pre post : List Char)
    (h : hay.data = pre ++ (pat.data ++ post)) : strHasSub hay pat = true := by
  unfold strHasSub
  rw [h]
  exact hasSubAux_mid pre pat.data post

theorem strHasSub_append_right (a b : String) : strHasSub (a ++ b) b = true := by
  apply strHasSub_of_data (a ++ b) b a.data []
  simp [String.data_append]

theorem topicCreatedHtml_has_tid (tid : String) :
    strHasSub (topicCreatedHtml tid) tid = true := by
  apply strHasSub_of_data _ _ ("\n        ").data
    (("\n        <br/><br/>\n        <a href=\"" ++ hashscanTopicLink tid ++
      ("\" target=\"_blank\" class=\"hashscan-link\">\n          View on HashScan\n        </a>\n      ")).data)
  simp [topicCreatedHtml, String.data_append]

theorem topicCreatedHtml_has_link (tid : String) :
    strHasSub (topicCreatedHtml tid) (hashscanTopicLink tid) = true := by
  apply strHasSub_of_data _ _
    (("\n        ").data ++ (tid.data ++ ("\n        <br/><br/>\n        <a href=\"").data))
    (("\" target=\"_blank\" class=\"hashscan-link\">\n          View on HashScan\n        </a>\n      ").data)
  simp [topicCreatedHtml, String.data_append]

theorem render_ne_empty (t : TopicIdVal) : t.render ≠ "" := by
  intro h
  have hd := congrArg String.data h
  unfold TopicIdVal.render at hd
  simp [String.data_append] at hd

theorem msgFailed_ne_submitted (x y : String) :
    ("Message submission failed: " ++ x) ≠ messageSubmittedHtml y := by
  intro h
  have h1 : ("Message submission failed: " ++ x).data.head? = some ('M') := by
    rw [String.data_append]; rfl
  have h2 : (messageSubmittedHtml y).data.head? = some ('\n') := by
    unfold messageSubmittedHtml
    rw [String.data_append, String.data_append]; rfl
  have hd : some ('M') = some ('\n') := by rw [← h1, ← h2, h]
  exact absurd hd (by decide)

/-- State synchronization establishes the session invariant
unconditionally: both branches write `accountId` and `isConnected`
together. -/
theorem syncWalletconnectState_inv (a : Option String) (s : AppState) :
    sessionInv (syncWalletconnectState a s) := by
  unfold sessionInv syncWalletconnectState
  cases a with
  | none => simp
  | some account =>
      by_cases hacc : account = ""
      · subst hacc; simp
      · simp [hacc]

/-- `initializeWalletConnect` touches only the stored-promise slot, so it
preserves the session invariant. -/
theorem initializeWalletConnect_inv (s : AppState) (h : sessionInv s) :
    sessionInv (initializeWalletConnect s).1 := by
  unfold initializeWalletConnect
  unfold sessionInv at *
  split <;> simpa using h

/-! Claim theorems. -/

/-- C1: after every completed run of `syncWalletconnectState`,
`openWalletConnectModal`, or `disconnectWallet` (and initially on page
load), `isConnected` is true if and only if `accountId` is a non-empty
string. -/
theorem claim1_session_invariant :
    (∀ d : Dom, sessionInv (initialState d)) ∧
    (∀ (a : Option String) (s : AppState), sessionInv (syncWalletconnectState a s)) ∧
    (∀ (env : ConnectEnv) (s : AppState), sessionInv s →
       sessionInv (openWalletConnectModal env s).1) ∧
    (∀ (o : Except String Unit) (s : AppState), sessionInv s →
       sessionInv (disconnectWallet o s).1) := by
  refine ⟨?_, ?_, ?_, ?_⟩
  · intro d
    unfold sessionInv initialState
    simp
  · exact syncWalletconnectState_inv
  · intro env s hs
    have h0 := initializeWalletConnect_inv s hs
    unfold openWalletConnectModal
    cases henv : env.initOutcome with
    | error m => simpa using h0
    | ok u =>
        by_cases hc : (initializeWalletConnect s).1.isConnected
        · simp [hc]
          exact h0
        · cases hmo : env.openModalOutcome with
          | error m => simp [hc, hmo]; exact h0
          | ok u2 => simp [hc, hmo]; exact syncWalletconnectState_inv _ _
  · intro o s hs
    unfold disconnectWallet
    by_cases hc : s.isConnected
    · cases o with
      | ok u => simp [hc, sessionInv]
      | error m => simpa [hc] using hs
    · simpa [hc] using hs

/-- Witness for C1 at concrete inputs: the invariant holds after a
successful connect run and after a successful disconnect run from the
connected fixture state. -/
theorem claim1_witness :
    sessionInv ((openWalletConnectModal cEnvOk disconnectedState).1) ∧
    sessionInv ((disconnectWallet (Except.ok ()) connectedState).1) :=
  ⟨claim1_session_invariant.2.2.1 cEnvOk disconnectedState (by decide),
   claim1_session_invariant.2.2.2 (Except.ok ()) connectedState (by decide)⟩

/-- C4 counterexample: in the connected fixture state, a disconnect whose
`disconnectAll` throws leaves the local state entirely unchanged —
`isConnected` stays true, `accountId` keeps its value, and the display is
not updated — refuting the claim that the state is still cleared. -/
theorem claim4_counterexample :
    connectedState.isConnected = true ∧
    (disconnectWallet (Except.error ("network failure")) connectedState).1 = connectedState ∧
    (disconnectWallet (Except.error ("network failure")) connectedState).1.isConnected = true ∧
    (disconnectWallet (Except.error ("network failure")) connectedState).1.accountId = "0.0.4321" ∧
    (disconnectWallet (Except.error ("network failure")) connectedState).1.dom.accountIdElem.content
      = "0.0.4321" := by
  decide

/-- C4 amended: for every disconnect invocation in the connected state
whose underlying `disconnectAll` call throws, the local state is NOT
cleared — the catch block only logs, so the whole state (including
`isConnected`, `accountId`, and the display) is unchanged, though the
`disconnectAll` call was made. -/
theorem claim4_disconnect_throw_preserves (msg : String) (s : AppState)
    (h : s.isConnected = true) :
    (disconnectWallet (Except.error msg) s).1 = s ∧
    (disconnectWallet (Except.error msg) s).2 = [SdkOp.disconnectAll] := by
  unfold disconnectWallet
  simp [h]

/-- Witness for the amended C4 at a concrete input. -/
theorem claim4_witness :
    connectedState.isConnected = true ∧
    ((disconnectWallet (Except.error ("boom")) connectedState).1 = connectedState ∧
     (disconnectWallet (Except.error ("boom")) connectedState).2 = [SdkOp.disconnectAll]) :=
  ⟨by decide, claim4_disconnect_throw_preserves ("boom") connectedState (by decide)⟩

/-- C6: invoking create-topic while `isConnected` is false performs no SDK
operation at all, renders the literal prompt "Connect a wallet first!"
(when the display element is present), and leaves `topicId` (and the rest
of the variables) unchanged. -/
theorem claim6_create_requires_connection (env : CreateEnv) (s : AppState)
    (h : s.isConnected = false) :
    (handleTopicCreation env s).2 = [] ∧
    (handleTopicCreation env s).1.topicId = s.topicId ∧
    (handleTopicCreation env s).1.accountId = s.accountId ∧
    (handleTopicCreation env s).1.isConnected = s.isConnected ∧
    (s.dom.topicIdDisplayElem.present = true →
      (handleTopicCreation env s).1.dom.topicIdDisplayElem.content = "Connect a wallet first!") := by
  unfold handleTopicCreation
  simp only [h]
  refine ⟨by simp, by simp, by simp, by simp, ?_⟩
  intro hp
  simp [updateTopicIdDisplay, hp]

/-- Witness for C6 at a concrete input. -/
theorem claim6_witness :
    disconnectedState.isConnected = false ∧
    ((handleTopicCreation envCreateOk disconnectedState).2 = [] ∧
     (handleTopicCreation envCreateOk disconnectedState).1.topicId = disconnectedState.topicId ∧
     (handleTopicCreation envCreateOk disconnectedState).1.accountId = disconnectedState.accountId ∧
     (handleTopicCreation envCreateOk disconnectedState).1.isConnected = disconnectedState.isConnected ∧
     (disconnectedState.dom.topicIdDisplayElem.present = true →
       (handleTopicCreation envCreateOk disconnectedState).1.dom.topicIdDisplayElem.content
         = "Connect a wallet first!")) :=
  ⟨by decide, claim6_create_requires_connection envCreateOk disconnectedState (by decide)⟩

/-- C9: `handleTopicCreation` never changes `accountId` or `isConnected`
(its only global write is `topicId`), and `handleTopicMessageSubmission`
never changes any of `accountId`, `isConnected`, `topicId`. -/
theorem claim9_frame :
    (∀ (env : CreateEnv) (s : AppState),
       (handleTopicCreation env s).1.accountId = s.accountId ∧
       (handleTopicCreation env s).1.isConnected = s.isConnected) ∧
    (∀ (env : SubmitEnv) (s : AppState),
       (handleTopicMessageSubmission env s).1.accountId = s.accountId ∧
       (handleTopicMessageSubmission env s).1.isConnected = s.isConnected ∧
       (handleTopicMessageSubmission env s).1.topicId = s.topicId) := by
  constructor
  · intro env s
    unfold handleTopicCreation
    split
    · simp
    · split
      · simp
      · split
        · simp
        · split
          · simp
          · split <;> simp
  · intro env s
    unfold handleTopicMessageSubmission
    split
    · simp
    · split
      · simp
      · split
        · simp
        · split
          · simp
          · split
            · simp
            · split
              · simp
              · split <;> simp

/-- C3: in a create-topic run that reaches the receipt, when the receipt
carries a topic identifier the stored `topicId` becomes its string form
and the rendered HTML contains both the literal identifier and the
hashscan link for it; when the receipt lacks a topic identifier,
`topicId` is unchanged and the failure text is rendered (the handler is a
total function, so no exception escapes). -/
theorem claim3_create_receipt (env : CreateEnv) (s : AppState) (receipt : CreateReceipt)
    (hconn : s.isConnected = true)
    (helem : s.dom.topicIdDisplayElem.present = true)
    (hf : env.freezeOutcome = Except.ok ())
    (he : env.executeOutcome = Except.ok ())
    (hr : env.receiptOutcome = Except.ok receipt) :
    (∀ t : TopicIdVal, receipt.topicId = some t →
       (handleTopicCreation env s).1.topicId = t.render ∧
       strHasSub (handleTopicCreation env s).1.dom.topicIdDisplayElem.content t.render = true ∧
       strHasSub (handleTopicCreation env s).1.dom.topicIdDisplayElem.content
         (hashscanTopicLink t.render) = true) ∧
    (receipt.topicId = none →
       (handleTopicCreation env s).1.topicId = s.topicId ∧
       (handleTopicCreation env s).1.dom.topicIdDisplayElem.content
         = "Topic creation failed (no topicId)") := by
  unfold handleTopicCreation
  constructor
  · intro t ht
    simp [hconn, hf, he, hr, ht, updateTopicIdDisplay, helem,
      topicCreatedHtml_has_tid, topicCreatedHtml_has_link]
  · intro ht
    simp [hconn, hf, he, hr, ht, updateTopicIdDisplay, helem]

/-- Witness for C3 at concrete inputs: receipt carrying topic 0.0.1234. -/
theorem claim3_witness :
    (∀ t : TopicIdVal,
       ({ topicId := some { shard := 0, realm := 0, num := 1234 } } : CreateReceipt).topicId = some t →
       (handleTopicCreation envCreateOk connectedState).1.topicId = t.render ∧
       strHasSub (handleTopicCreation envCreateOk connectedState).1.dom.topicIdDisplayElem.content
         t.render = true ∧
       strHasSub (handleTopicCreation envCreateOk connectedState).1.dom.topicIdDisplayElem.content
         (hashscanTopicLink t.render) = true) ∧
    (({ topicId := some { shard := 0, realm := 0, num := 1234 } } : CreateReceipt).topicId = none →
       (handleTopicCreation envCreateOk connectedState).1.topicId = connectedState.topicId ∧
       (handleTopicCreation envCreateOk connectedState).1.dom.topicIdDisplayElem.content
         = "Topic creation failed (no topicId)") :=
  claim3_create_receipt envCreateOk connectedState
    { topicId := some { shard := 0, realm := 0, num := 1234 } }
    (by decide) (by decide) rfl rfl rfl

/-- C2: in a submit-message run that reaches the receipt, the success
branch (the "Message submitted ... successfully!" HTML with the explorer
link) is rendered exactly when the receipt's status is present with
string form "SUCCESS"; any other present status value makes the failure
branch render a message containing that value. -/
theorem claim2_submit_status (env : SubmitEnv) (s : AppState) (receipt : SubmitReceipt)
    (hconn : s.isConnected = true)
    (htopic : s.topicId ≠ "")
    (hin : s.dom.messageInput.present = true)
    (hval : s.dom.messageInput.content ≠ "")
    (helem : s.dom.messageStatusElem.present = true)
    (hf : env.freezeOutcome = Except.ok ())
    (he : env.executeOutcome = Except.ok ())
    (hr : env.receiptOutcome = Except.ok receipt) :
    ((handleTopicMessageSubmission env s).1.dom.messageStatusElem.content
        = messageSubmittedHtml s.topicId ↔ receipt.status = some "SUCCESS") ∧
    (∀ st : String, receipt.status = some st → st ≠ "SUCCESS" →
       (handleTopicMessageSubmission env s).1.dom.messageStatusElem.content
         = "Message submission failed: " ++ st ∧
       strHasSub (handleTopicMessageSubmission env s).1.dom.messageStatusElem.content st = true) := by
  unfold handleTopicMessageSubmission
  cases hst : receipt.status with
  | none =>
      constructor
      · simp [hconn, htopic, hin, hval, hr, hf, he, hst, statusIsSuccess, statusText,
          updateMessageStatus, helem]
        simpa using msgFailed_ne_submitted ("undefined") s.topicId
      · intro st hsome hne
        exact absurd hsome (by simp)
  | some st =>
      by_cases hsucc : st = "SUCCESS"
      · subst hsucc
        constructor
        · simp [hconn, htopic, hin, hval, hr, hf, he, hst, statusIsSuccess,
            updateMessageStatus, helem]
        · intro st2 hsome hne
          have h2 : "SUCCESS" = st2 := by injection hsome
          exact absurd h2.symm hne
      · constructor
        · simp [hconn, htopic, hin, hval, hr, hf, he, hst, statusIsSuccess, hsucc, statusText,
            updateMessageStatus, helem]
          simpa using msgFailed_ne_submitted st s.topicId
        · intro st2 hsome hne
          have h2 : st = st2 := by injection hsome
          subst h2
          constructor
          · simp [hconn, htopic, hin, hval, hr, hf, he, hst, statusIsSuccess, hsucc, statusText,
              updateMessageStatus, helem]
          · simp [hconn, htopic, hin, hval, hr, hf, he, hst, statusIsSuccess, hsucc, statusText,
              updateMessageStatus, helem]
            simpa using strHasSub_append_right ("Message submission failed: ") st

/-- Witness for C2 at concrete inputs: a run with status INVALID_TOPIC_ID
takes the failure branch containing the status value. -/
theorem claim2_witness :
    (((handleTopicMessageSubmission
        { freezeOutcome := Except.ok (), executeOutcome := Except.ok (),
          receiptOutcome := Except.ok { status := some ("INVALID_TOPIC_ID") } }
        connectedTopicState).1.dom.messageStatusElem.content
          = messageSubmittedHtml connectedTopicState.topicId ↔
        ({ status := some ("INVALID_TOPIC_ID") } : SubmitReceipt).status = some "SUCCESS") ∧
     (∀ st : String, ({ status := some ("INVALID_TOPIC_ID") } : SubmitReceipt).status = some st →
        st ≠ "SUCCESS" →
        (handleTopicMessageSubmission
          { freezeOutcome := Except.ok (), executeOutcome := Except.ok (),
            receiptOutcome := Except.ok { status := some ("INVALID_TOPIC_ID") } }
          connectedTopicState).1.dom.messageStatusElem.content
            = "Message submission failed: " ++ st ∧
        strHasSub (handleTopicMessageSubmission
          { freezeOutcome := Except.ok (), executeOutcome := Except.ok (),
            receiptOutcome := Except.ok { status := some ("INVALID_TOPIC_ID") } }
          connectedTopicState).1.dom.messageStatusElem.content st = true)) :=
  claim2_submit_status
    { freezeOutcome := Except.ok (), executeOutcome := Except.ok (),
      receiptOutcome := Except.ok { status := some ("INVALID_TOPIC_ID") } }
    connectedTopicState { status := some ("INVALID_TOPIC_ID") }
    (by decide) (by decide) (by decide) (by decide) (by decide) rfl rfl rfl

/-- C10: a submit-message run whose receipt has an absent status does not
apply `toString` to the absent value (the truthiness guard short-circuits;
the embedding is the total translation of that guard) and renders the
failure text with the JS interpolation of the absent field, i.e.
"Message submission failed: undefined". -/
theorem claim10_absent_status (env : SubmitEnv) (s : AppState)
    (hconn : s.isConnected = true)
    (htopic : s.topicId ≠ "")
    (hin : s.dom.messageInput.present = true)
    (hval : s.dom.messageInput.content ≠ "")
    (helem : s.dom.messageStatusElem.present = true)
    (hf : env.freezeOutcome = Except.ok ())
    (he : env.executeOutcome = Except.ok ())
    (hr : env.receiptOutcome = Except.ok { status := none }) :
    (handleTopicMessageSubmission env s).1.dom.messageStatusElem.content
      = "Message submission failed: undefined" := by
  unfold handleTopicMessageSubmission
  simp [hconn, htopic, hin, hval, hr, hf, he, statusIsSuccess, statusText,
    updateMessageStatus, helem]

/-- Witness for C10 at concrete inputs. -/
theorem claim10_witness :
    (handleTopicMessageSubmission
      { freezeOutcome := Except.ok (), executeOutcome := Except.ok (),
        receiptOutcome := Except.ok { status := none } }
      connectedTopicState).1.dom.messageStatusElem.content
        = "Message submission failed: undefined" :=
  claim10_absent_status
    { freezeOutcome := Except.ok (), executeOutcome := Except.ok (),
      receiptOutcome := Except.ok { status := none } }
    connectedTopicState
    (by decide) (by decide) (by decide) (by decide) (by decide) rfl rfl rfl

/-- C5 counterexample: a disconnect run in the connected fixture state
whose `disconnectAll` throws with message "boom" renders that message
nowhere — no display surface of the page contains "boom" afterwards —
refuting the claim that every thrown error in the three flows is rendered
into a status area. -/
theorem claim5_counterexample :
    connectedState.isConnected = true ∧
    strHasSub (disconnectWallet (Except.error ("boom")) connectedState).1.dom.accountIdElem.content
      "boom" = false ∧
    strHasSub (disconnectWallet (Except.error ("boom")) connectedState).1.dom.disconnectButton.content
      "boom" = false ∧
    strHasSub (disconnectWallet (Except.error ("boom")) connectedState).1.dom.topicIdDisplayElem.content
      "boom" = false ∧
    strHasSub (disconnectWallet (Except.error ("boom")) connectedState).1.dom.messageStatusElem.content
      "boom" = false := by
  decide

/-- C5 amended: every thrown error is caught (the handlers are total, so
no unhandled rejection escapes), but only the create-topic and
submit-message flows render a string containing the error's message text
into their status areas; the connect and disconnect flows catch the error
and merely log it, leaving the DOM unchanged. -/
theorem claim5_error_rendering :
    (∀ (env : CreateEnv) (s : AppState) (msg : String),
       s.isConnected = true → s.dom.topicIdDisplayElem.present = true →
       env.freezeOutcome = Except.error msg →
       (handleTopicCreation env s).1.dom.topicIdDisplayElem.content
         = "Topic creation error: " ++ msg ∧
       strHasSub (handleTopicCreation env s).1.dom.topicIdDisplayElem.content msg = true) ∧
    (∀ (env : CreateEnv) (s : AppState) (msg : String),
       s.isConnected = true → s.dom.topicIdDisplayElem.present = true →
       env.freezeOutcome = Except.ok () → env.executeOutcome = Except.error msg →
       (handleTopicCreation env s).1.dom.topicIdDisplayElem.content
         = "Topic creation error: " ++ msg ∧
       strHasSub (handleTopicCreation env s).1.dom.topicIdDisplayElem.content msg = true) ∧
    (∀ (env : CreateEnv) (s : AppState) (msg : String),
       s.isConnected = true → s.dom.topicIdDisplayElem.present = true →
       env.freezeOutcome = Except.ok () → env.executeOutcome = Except.ok () →
       env.receiptOutcome = Except.error msg →
       (handleTopicCreation env s).1.dom.topicIdDisplayElem.content
         = "Topic creation error: " ++ msg ∧
       strHasSub (handleTopicCreation env s).1.dom.topicIdDisplayElem.content msg = true) ∧
    (∀ (env : SubmitEnv) (s : AppState) (msg : String),
       s.isConnected = true → s.topicId ≠ "" →
       s.dom.messageInput.present = true → s.dom.messageInput.content ≠ "" →
       s.dom.messageStatusElem.present = true →
       env.freezeOutcome = Except.error msg →
       (handleTopicMessageSubmission env s).1.dom.messageStatusElem.content
         = "Message submit error: " ++ msg ∧
       strHasSub (handleTopicMessageSubmission env s).1.dom.messageStatusElem.content msg = true) ∧
    (∀ (env : SubmitEnv) (s : AppState) (msg : String),
       s.isConnected = true → s.topicId ≠ "" →
       s.dom.messageInput.present = true → s.dom.messageInput.content ≠ "" →
       s.dom.messageStatusElem.present = true →
       env.freezeOutcome = Except.ok () → env.executeOutcome = Except.error msg →
       (handleTopicMessageSubmission env s).1.dom.messageStatusElem.content
         = "Message submit error: " ++ msg ∧
       strHasSub (handleTopicMessageSubmission env s).1.dom.messageStatusElem.content msg = true) ∧
    (∀ (env : SubmitEnv) (s : AppState) (msg : String),
       s.isConnected = true → s.topicId ≠ "" →
       s.dom.messageInput.present = true → s.dom.messageInput.content ≠ "" →
       s.dom.messageStatusElem.present = true →
       env.freezeOutcome = Except.ok () → env.executeOutcome = Except.ok () →
       env.receiptOutcome = Except.error msg →
       (handleTopicMessageSubmission env s).1.dom.messageStatusElem.content
         = "Message submit error: " ++ msg ∧
       strHasSub (handleTopicMessageSubmission env s).1.dom.messageStatusElem.content msg = true) ∧
    (∀ (env : ConnectEnv) (s : AppState) (msg : String),
       env.initOutcome = Except.error msg →
       (openWalletConnectModal env s).1.dom = s.dom) ∧
    (∀ (env : ConnectEnv) (s : AppState) (msg : String),
       env.initOutcome = Except.ok () → env.openModalOutcome = Except.error msg →
       (openWalletConnectModal env s).1.dom = s.dom) ∧
    (∀ (s : AppState) (msg : String),
       (disconnectWallet (Except.error msg) s).1.dom = s.dom) := by
  refine ⟨?_, ?_, ?_, ?_, ?_, ?_, ?_, ?_, ?_⟩
  · intro env s msg hc hp hf
    unfold handleTopicCreation
    constructor
    · simp [hc, hf, updateTopicIdDisplay, hp]
    · simp [hc, hf, updateTopicIdDisplay, hp]
      simpa using strHasSub_append_right ("Topic creation error: ") msg
  · intro env s msg hc hp hf he
    unfold handleTopicCreation
    constructor
    · simp [hc, hf, he, updateTopicIdDisplay, hp]
    · simp [hc, hf, he, updateTopicIdDisplay, hp]
      simpa using strHasSub_append_right ("Topic creation error: ") msg
  · intro env s msg hc hp hf he hr
    unfold handleTopicCreation
    constructor
    · simp [hc, hf, he, hr, updateTopicIdDisplay, hp]
    · simp [hc, hf, he, hr, updateTopicIdDisplay, hp]
      simpa using strHasSub_append_right ("Topic creation error: ") msg
  · intro env s msg hc ht hip hiv hp hf
    unfold handleTopicMessageSubmission
    constructor
    · simp [hc, ht, hip, hiv, hf, updateMessageStatus, hp]
    · simp [hc, ht, hip, hiv, hf, updateMessageStatus, hp]
      simpa using strHasSub_append_right ("Message submit error: ") msg
  · intro env s msg hc ht hip hiv hp hf he
    unfold handleTopicMessageSubmission
    constructor
    · simp [hc, ht, hip, hiv, hf, he, updateMessageStatus, hp]
    · simp [hc, ht, hip, hiv, hf, he, updateMessageStatus, hp]
      simpa using strHasSub_append_right ("Message submit error: ") msg
  · intro env s msg hc ht hip hiv hp hf he hr
    unfold handleTopicMessageSubmission
    constructor
    · simp [hc, ht, hip, hiv, hf, he, hr, updateMessageStatus, hp]
    · simp [hc, ht, hip, hiv, hf, he, hr, updateMessageStatus, hp]
      simpa using strHasSub_append_right ("Message submit error: ") msg
  · intro env s msg hi
    unfold openWalletConnectModal initializeWalletConnect
    simp [hi]
    split <;> simp
  · intro env s msg hi ho
    unfold openWalletConnectModal
    simp [hi, ho]
    by_cases hc : (initializeWalletConnect s).1.isConnected
    · simp [hc]
      unfold initializeWalletConnect
      split <;> simp
    · simp [hc]
      unfold initializeWalletConnect
      split <;> simp
  · intro s msg
    unfold disconnectWallet
    split <;> simp

/-- Witness for the amended C5 at a concrete input: a create-topic run
whose freeze throws renders the message. -/
theorem claim5_witness :
    (handleTopicCreation
      { freezeOutcome := Except.error ("user rejected"),
        executeOutcome := Except.ok (), receiptOutcome := Except.ok { topicId := none } }
      connectedState).1.dom.topicIdDisplayElem.content
        = "Topic creation error: " ++ "user rejected" ∧
    strHasSub (handleTopicCreation
      { freezeOutcome := Except.error ("user rejected"),
        executeOutcome := Except.ok (), receiptOutcome := Except.ok { topicId := none } }
      connectedState).1.dom.topicIdDisplayElem.content "user rejected" = true :=
  claim5_error_rendering.1
    { freezeOutcome := Except.error ("user rejected"),
      executeOutcome := Except.ok (), receiptOutcome := Except.ok { topicId := none } }
    connectedState ("user rejected") (by decide) (by decide) rfl

/-! Per-operation lemmas about `topicId`. -/

theorem initializeWalletConnect_topicId (s : AppState) :
    (initializeWalletConnect s).1.topicId = s.topicId := by
  unfold initializeWalletConnect
  split <;> rfl

theorem syncWalletconnectState_topicId (a : Option String) (s : AppState) :
    (syncWalletconnectState a s).topicId = s.topicId := by
  cases a with
  | none => rfl
  | some account =>
      simp only [syncWalletconnectState]
      split <;> rfl

theorem openWalletConnectModal_topicId (env : ConnectEnv) (s : AppState) :
    (openWalletConnectModal env s).1.topicId = s.topicId := by
  unfold openWalletConnectModal
  cases env.initOutcome with
  | error m => simp [initializeWalletConnect_topicId]
  | ok u =>
      by_cases hc : (initializeWalletConnect s).1.isConnected
      · simp [hc, initializeWalletConnect_topicId]
      · cases env.openModalOutcome with
        | error m => simp [hc, initializeWalletConnect_topicId]
        | ok u2 =>
            simp [hc, syncWalletconnectState_topicId, initializeWalletConnect_topicId]

theorem disconnectWallet_topicId (o : Except String Unit) (s : AppState) :
    (disconnectWallet o s).1.topicId = s.topicId := by
  unfold disconnectWallet
  split
  · split <;> rfl
  · rfl

theorem handleTopicMessageSubmission_topicId (env : SubmitEnv) (s : AppState) :
    (handleTopicMessageSubmission env s).1.topicId = s.topicId := by
  unfold handleTopicMessageSubmission
  split
  · rfl
  · split
    · rfl
    · split
      · rfl
      · split
        · rfl
        · split
          · rfl
          · split
            · rfl
            · split <;> rfl

theorem handleTopicCreation_topicId (env : CreateEnv) (s : AppState) :
    (handleTopicCreation env s).1.topicId = s.topicId ∨
    ∃ t : TopicIdVal, (handleTopicCreation env s).1.topicId = t.render := by
  unfold handleTopicCreation
  split
  · exact Or.inl rfl
  · split
    · exact Or.inl rfl
    · split
      · exact Or.inl rfl
      · split
        · exact Or.inl rfl
        · split
          · exact Or.inr ⟨_, rfl⟩
          · exact Or.inl rfl

/-- Every single operation of the script preserves non-emptiness of
`topicId`: the only write to it is in `handleTopicCreation`, which stores
a `TopicId` string form (never empty). -/
theorem applyStep_topicId_ne (st : Step) (s : AppState) (h : s.topicId ≠ "") :
    (applyStep s st).topicId ≠ "" := by
  cases st with
  | initOnly => simpa [applyStep, applyStepOps, initializeWalletConnect_topicId] using h
  | sync a => simpa [applyStep, applyStepOps, syncWalletconnectState_topicId] using h
  | connect env => simpa [applyStep, applyStepOps, openWalletConnectModal_topicId] using h
  | disconnect o => simpa [applyStep, applyStepOps, disconnectWallet_topicId] using h
  | submit env =>
      simpa [applyStep, applyStepOps, handleTopicMessageSubmission_topicId] using h
  | create env =>
      rcases handleTopicCreation_topicId env s with hca | ⟨t, hct⟩
      · simpa [applyStep, applyStepOps, hca] using h
      · simp [applyStep, applyStepOps, hct, render_ne_empty t]

/-- C7: once `topicId` holds a non-empty value, no sequence of operations
of the script (page-load init, sync, connect, disconnect, create topic,
submit message, with arbitrary external outcomes) ever resets it to
empty: `HasTopic` never transitions back to `NoTopic`. -/
theorem claim7_topic_monotone (l : List Step) (s : AppState) (h : s.topicId ≠ "") :
    (runSteps s l).topicId ≠ "" := by
  induction l generalizing s with
  | nil => simpa [runSteps] using h
  | cons st rest ih =>
      have h1 := applyStep_topicId_ne st s h
      simpa [runSteps] using ih (applyStep s st) h1

/-- Witness for C7 at concrete inputs: from the fixture state holding
topic 0.0.1234, a disconnect, a reconnect, a failing create and a
successful submit leave a non-empty topic id. -/
theorem claim7_witness :
    connectedTopicState.topicId ≠ "" ∧
    (runSteps connectedTopicState
      [Step.disconnect (Except.ok ()), Step.connect cEnvOk,
       Step.create { freezeOutcome := Except.error ("boom"),
                     executeOutcome := Except.ok (),
                     receiptOutcome := Except.ok { topicId := none } },
       Step.submit envSubmitOk]).topicId ≠ "" :=
  ⟨by decide,
   claim7_topic_monotone
     [Step.disconnect (Except.ok ()), Step.connect cEnvOk,
      Step.create { freezeOutcome := Except.error ("boom"),
                    executeOutcome := Except.ok (),
                    receiptOutcome := Except.ok { topicId := none } },
      Step.submit envSubmitOk]
     connectedTopicState (by decide)⟩

theorem countInit_append (a b : List SdkOp) :
    countInit (a ++ b) = countInit a + countInit b := by
  induction a with
  | nil => simp [countInit]
  | cons x xs ih =>
      cases x <;> (simp [countInit, ih]; try omega)

theorem syncWalletconnectState_started (a : Option String) (s : AppState) :
    (syncWalletconnectState a s).walletConnectInitStarted = s.walletConnectInitStarted := by
  cases a with
  | none => rfl
  | some account =>
      simp only [syncWalletconnectState]
      split <;> rfl

theorem initializeWalletConnect_budget (s : AppState) :
    countInit (initializeWalletConnect s).2 + initBudget (initializeWalletConnect s).1
      ≤ initBudget s := by
  unfold initializeWalletConnect initBudget
  split
  · simp_all [countInit]
  · simp_all [countInit]

theorem openWalletConnectModal_budget (env : ConnectEnv) (s : AppState) :
    countInit (openWalletConnectModal env s).2 + initBudget (openWalletConnectModal env s).1
      ≤ initBudget s := by
  have h0 := initializeWalletConnect_budget s
  unfold openWalletConnectModal
  cases env.initOutcome with
  | error m => simpa using h0
  | ok u =>
      by_cases hc : (initializeWalletConnect s).1.isConnected
      · simpa [hc] using h0
      · cases env.openModalOutcome with
        | error m =>
            simpa [hc, countInit_append, countInit] using h0
        | ok u2 =>
            have hb : initBudget (syncWalletconnectState env.signerAccount
                (initializeWalletConnect s).1) = initBudget (initializeWalletConnect s).1 := by
              unfold initBudget
              rw [syncWalletconnectState_started]
            simp only [hc, Bool.not_eq_true, Bool.false_eq_true, if_false]
            simpa [countInit_append, countInit, hb] using h0

theorem disconnectWallet_budget (o : Except String Unit) (s : AppState) :
    countInit (disconnectWallet o s).2 + initBudget (disconnectWallet o s).1
      ≤ initBudget s := by
  unfold disconnectWallet initBudget
  split
  · split <;> simp [countInit]
  · simp [countInit]

theorem handleTopicCreation_started (env : CreateEnv) (s : AppState) :
    (handleTopicCreation env s).1.walletConnectInitStarted = s.walletConnectInitStarted := by
  unfold handleTopicCreation
  split
  · rfl
  · split
    · rfl
    · split
      · rfl
      · split
        · rfl
        · split <;> rfl

theorem handleTopicCreation_countInit (env : CreateEnv) (s : AppState) :
    countInit (handleTopicCreation env s).2 = 0 := by
  unfold handleTopicCreation
  split
  · rfl
  · split
    · rfl
    · split
      · rfl
      · split
        · rfl
        · split <;> rfl

theorem handleTopicCreation_budget (env : CreateEnv) (s : AppState) :
    countInit (handleTopicCreation env s).2 + initBudget (handleTopicCreation env s).1
      ≤ initBudget s := by
  unfold initBudget
  rw [handleTopicCreation_started, handleTopicCreation_countInit]
  simp

theorem handleTopicMessageSubmission_started (env : SubmitEnv) (s : AppState) :
    (handleTopicMessageSubmission env s).1.walletConnectInitStarted
      = s.walletConnectInitStarted := by
  unfold handleTopicMessageSubmission
  split
  · rfl
  · split
    · rfl
    · split
      · rfl
      · split
        · rfl
        · split
          · rfl
          · split
            · rfl
            · split <;> rfl

theorem handleTopicMessageSubmission_countInit (env : SubmitEnv) (s : AppState) :
    countInit (handleTopicMessageSubmission env s).2 = 0 := by
  unfold handleTopicMessageSubmission
  split
  · rfl
  · split
    · rfl
    · split
      · rfl
      · split
        · rfl
        · split
          · rfl
          · split
            · rfl
            · split <;> rfl

theorem handleTopicMessageSubmission_budget (env : SubmitEnv) (s : AppState) :
    countInit (handleTopicMessageSubmission env s).2
      + initBudget (handleTopicMessageSubmission env s).1 ≤ initBudget s := by
  unfold initBudget
  rw [handleTopicMessageSubmission_started, handleTopicMessageSubmission_countInit]
  simp

theorem applyStepOps_init_le (st : Step) (s : AppState) :
    countInit (applyStepOps s st).2 + initBudget (applyStepOps s st).1 ≤ initBudget s := by
  cases st with
  | initOnly => simpa [applyStepOps] using initializeWalletConnect_budget s
  | sync a =>
      have hb : initBudget (syncWalletconnectState a s) = initBudget s := by
        unfold initBudget
        rw [syncWalletconnectState_started]
      simp [applyStepOps, countInit, hb]
  | connect env => simpa [applyStepOps] using openWalletConnectModal_budget env s
  | disconnect o => simpa [applyStepOps] using disconnectWallet_budget o s
  | create env => simpa [applyStepOps] using handleTopicCreation_budget env s
  | submit env => simpa [applyStepOps] using handleTopicMessageSubmission_budget env s

theorem runTrace_init_le (l : List Step) (s : AppState) :
    countInit (runTrace s l).2 + initBudget (runTrace s l).1 ≤ initBudget s := by
  induction l generalizing s with
  | nil => simp [runTrace, countInit]
  | cons st rest ih =>
      have h1 := applyStepOps_init_le st s
      have h2 := ih (applyStepOps s st).1
      simp only [runTrace, countInit_append]
      omega

/-- C8: over any number and interleaving of invocations of
`initializeWalletConnect` (bare, from the page-load handler, or inside a
connect flow) and of the other operations, `dappConnector.init()` is
invoked at most once per page load — the check of the stored promise slot
and the store itself are synchronous (no `await` between them), so each
event-loop turn sees the slot already set once any turn created it, and
later callers await that same stored promise. -/
theorem claim8_init_at_most_once (l : List Step) (s : AppState)
    (h : s.walletConnectInitStarted = false) :
    countInit (runTrace s l).2 ≤ 1 := by
  have h1 := runTrace_init_le l s
  have h2 : initBudget s = 1 := by unfold initBudget; simp [h]
  omega

/-- Witness for C8 at concrete inputs: page-load init followed by two
connect clicks performs exactly at most one init call. -/
theorem claim8_witness :
    disconnectedState.walletConnectInitStarted = false ∧
    countInit (runTrace disconnectedState
      [Step.initOnly, Step.connect cEnvOk, Step.connect cEnvOk]).2 ≤ 1 :=
  ⟨by decide,
   claim8_init_at_most_once [Step.initOnly, Step.connect cEnvOk, Step.connect cEnvOk]
     disconnectedState (by decide)⟩

end HcsDapp
